import Mathlib

/-!
Shallow embedding of `core/sawtooth/client.py` (Sawtooth client library):
the state-synchronization engine (`_ClientState.fetch`), the batch
accumulator and submission pipeline (`SawtoothClient.start_batch` /
`reset_batch` / `send_batch` / `sendtxn`), the commit-confirmation loop
(`SawtoothClient.wait_for_commit`), the transaction-status mapping
(`TransactionStatus`), and the session-cookie handling in
`_Communication`.

External effects (HTTP responses, the transaction family's building,
signing, validation and application of transactions) are supplied as
explicit oracles; the embedded functions return, together with the new
client state, a trace of the network requests / pipeline events they
issue, so that ordering and absence of effects can be stated.
-/

namespace Sawtooth

/-- A network request issued by the client, in issue order. -/
inductive Req where
  | blockList (count : Nat)
  | storeDelta (blockId : String)
  | storeObjects (blockId : String)
deriving Repr, DecidableEq

/-- An opaque per-block store delta as returned by
`get_store_delta_for_block`; the client never inspects it, it only hands
it to `clone_store`. -/
structure Delta where
  raw : String
deriving Repr, DecidableEq

/-- Modelled from the spec: the copy-on-write store
(`journal.global_store_manager.KeyValueStore`, an external collaborator
not part of this source file).  The client only ever (a) builds a
brand-new store from a full object fetch
(`state_type(prevstore=None, storeinfo={...})`), (b) clones with a delta
applied (`clone_store(delta)`), or (c) forks with no change
(`clone_store()`).  We model the store as the free term algebra of these
three operations, so a store value records exactly which operations
built it and in which order. -/
inductive Store where
  | base (objects : List (String × String))
  | cloneDelta (prev : Store) (delta : Delta)
  | fork (prev : Store)
deriving Repr, DecidableEq

/-- The predecessor a store was derived from: `none` for a brand-new
store built from a full fetch (`prevstore=None`), `some` for clones. -/
def Store.prevStore : Store → Option Store
  | .base _ => none
  | .cloneDelta p _ => some p
  | .fork p => some p

/-- The state held by `_ClientState` for a client constructed with a
live communication object (`client is not None`, so `_state` and
`_current_state` start as `None`). -/
structure ClientState where
  /-- `_state`: the synchronized snapshot. -/
  state : Option Store
  /-- `_current_state`: the speculative snapshot. -/
  currentState : Option Store
  /-- `_current_block_id`: the recorded head. -/
  currentBlockId : Option String
deriving Repr, DecidableEq

/-- The remote validator as seen through the read requests `fetch`
makes: the block-id list answer (newest first) and, per block id, the
delta and the full object set. -/
structure RemoteLedger where
  blockList : List String
  delta : String → Delta
  storeObjects : String → List (String × String)

/-- Python-level failures `fetch` can hit. -/
inductive FetchError where
  /-- `block_ids[0]` on an empty list. -/
  | indexError
  /-- `None.clone_store(...)`. -/
  | attributeError
deriving Repr, DecidableEq

/-- The loop `for fetch_id in reversed(fetch_list): delta = ...;
self._state = self._state.clone_store(delta)`, taking the ids already in
application (oldest-to-newest) order.  Returns the final store and the
delta requests in issue order. -/
def applyDeltas (remote : RemoteLedger) (st : Store) :
    List String → Store × List Req
  | [] => (st, [])
  | fetchId :: rest =>
      let d := remote.delta fetchId
      let (st', reqs) := applyDeltas remote (Store.cloneDelta st d) rest
      (st', Req.storeDelta fetchId :: reqs)

/-- `_ClientState.fetch`.  Returns the new client state and the trace of
network requests issued, or the Python error raised. -/
def ClientState.fetch (remote : RemoteLedger) (cs : ClientState) :
    Except FetchError (ClientState × List Req) :=
  -- block_ids = self._client.get_block_list(10); block_id = block_ids[0]
  match remote.blockList with
  | [] => .error .indexError
  | blockId :: _ =>
    -- if block_id == self._current_block_id: return
    if some blockId = cs.currentBlockId then
      .ok (cs, [Req.blockList 10])
    else
      match cs.currentBlockId with
      | some cur =>
        if cur ∈ remote.blockList then
          -- fetch_list = block_ids[:block_ids.index(cur)]
          let fetchList := remote.blockList.takeWhile (fun b => b ≠ cur)
          match cs.state with
          | none => .error .attributeError
          | some st =>
            let (st', dreqs) := applyDeltas remote st fetchList.reverse
            .ok ({ state := some st',
                   currentState := some (Store.fork st'),
                   currentBlockId := some blockId },
                 Req.blockList 10 :: dreqs)
        else
          -- no common block: re-fetch full state
          let objs := remote.storeObjects blockId
          let st' := Store.base objs
          .ok ({ state := some st',
                 currentState := some (Store.fork st'),
                 currentBlockId := some blockId },
               [Req.blockList 10, Req.storeObjects blockId])
      | none =>
          let objs := remote.storeObjects blockId
          let st' := Store.base objs
          .ok ({ state := some st',
                 currentState := some (Store.fork st'),
                 currentBlockId := some blockId },
               [Req.blockList 10, Req.storeObjects blockId])

/-- An opaque update record, as accumulated in a batch or submitted
directly; the client treats it as a black box. -/
structure Update where
  raw : String
deriving Repr, DecidableEq

/-- A value of the batch dict: the `'Updates'` list or the
`'Dependencies'` list. -/
inductive BatchValue where
  | updates (us : List Update)
  | dependencies (ds : List String)
deriving Repr, DecidableEq

/-- The Python dict `self._update_batch` (and likewise the `minfo` dict
handed to `sendtxn`), modelled as an association list so that `len()` of
the dict is the length of this list. -/
abbrev BatchDict := List (String × BatchValue)

/-- `{'Updates': [], 'Dependencies': []}` as built by `start_batch`. -/
def newBatchDict : BatchDict :=
  [("Updates", BatchValue.updates []), ("Dependencies", BatchValue.dependencies [])]

/-- Python exceptions the client code can raise.  `clientException` is
the configuration-error type (`sawtooth.exceptions.ClientException`);
`typeError` is the untyped built-in `TypeError` (e.g. `len(None)`). -/
inductive PyErr where
  | clientException (msg : String)
  | typeError (msg : String)
  | attributeError
  | invalidTransactionError
  | messageException
  | assertionError
deriving Repr, DecidableEq

/-- Pipeline-level events of `sendtxn`, in occurrence order. -/
inductive Event where
  /-- `txn = txn_type(minfo=minfo); txn.sign_from_node(...)`. -/
  | buildAndSign (m : BatchDict)
  /-- `txn.check_valid(self._current_state.state)`. -/
  | checkValid (m : BatchDict)
  /-- `self._communication.postmsg(msg.MessageType, msg.dump())`. -/
  | post (m : BatchDict)
  /-- `txn.apply(self._current_state.state)`. -/
  | applySpec (m : BatchDict)
deriving Repr, DecidableEq

/-- Outcome of the network post of a transaction message. -/
inductive PostOutcome where
  /-- The post succeeded; `hasResult` is the truthiness of the decoded
  response body (`postmsg` returns `None` for unrecognized content
  types). -/
  | ok (hasResult : Bool)
  /-- Transport-level failure (`MessageException`). -/
  | messageException
  /-- The server decoded a validation rejection
  (`InvalidTransactionError`). -/
  | invalidTransactionError
deriving Repr, DecidableEq

/-- The external transaction family and network, as consumed by
`sendtxn`: identifier derived at signing time, the local `check_valid`
verdict, the local `apply` effect, and the post outcome. -/
structure TxnOracle where
  identifierOf : BatchDict → String
  checkValid : BatchDict → Store → Bool
  applyTxn : BatchDict → Store → Store
  post : PostOutcome

/-- The `SawtoothClient` fields the batch accumulator and submission
pipeline touch.  `specState` is `self._current_state.state`, the
speculative snapshot (`none` when no store name was configured). -/
structure Client where
  updateBatch : Option BatchDict
  lastTransaction : Option String
  specState : Option Store
  disableClientValidation : Bool
  hasLocalNode : Bool
deriving Repr, DecidableEq

/-- `SawtoothClient.start_batch`. -/
def Client.start_batch (c : Client) : Except PyErr Unit × Client :=
  match c.updateBatch with
  | some _ => (.error (.clientException "Update batch already in progress."), c)
  | none => (.ok (), { c with updateBatch := some newBatchDict })

/-- `SawtoothClient.reset_batch`. -/
def Client.reset_batch (c : Client) : Client :=
  { c with updateBatch := none }

/-- The tail of `sendtxn` after local validation passed: build and sign
the message envelope, post it, and on success record the identifier and
apply the transaction to the speculative snapshot unless client
validation is disabled. -/
def Client.sendtxnPost (o : TxnOracle) (c : Client) (minfo : BatchDict)
    (ev : List Event) : Except PyErr (Option String) × Client × List Event :=
  let ev' := ev ++ [Event.post minfo]
  match o.post with
  | .messageException =>
      -- except MessageException: return None
      (.ok none, c, ev')
  | .invalidTransactionError =>
      -- raised by postmsg, not caught by sendtxn
      (.error .invalidTransactionError, c, ev')
  | .ok false =>
      -- assert result
      (.error .assertionError, c, ev')
  | .ok true =>
      let txnid := o.identifierOf minfo
      let c1 := { c with lastTransaction := some txnid }
      if c.disableClientValidation then
        (.ok (some txnid), c1, ev')
      else
        match c.specState with
        | none => (.error .attributeError, c1, ev')
        | some st =>
            (.ok (some txnid),
             { c1 with specState := some (o.applyTxn minfo st) },
             ev' ++ [Event.applySpec minfo])

/-- `SawtoothClient.sendtxn`. -/
def Client.sendtxn (o : TxnOracle) (c : Client) (minfo : BatchDict) :
    Except PyErr (Option String) × Client × List Event :=
  if c.hasLocalNode = false then
    (.error (.clientException "can not send transactions as a read-only client"), c, [])
  else
    let ev0 := [Event.buildAndSign minfo]
    if c.disableClientValidation then
      Client.sendtxnPost o c minfo ev0
    else
      match c.specState with
      | none =>
          -- self._current_state is None: AttributeError on `.state`
          (.error .attributeError, c, ev0)
      | some st =>
          if o.checkValid minfo st then
            Client.sendtxnPost o c minfo (ev0 ++ [Event.checkValid minfo])
          else
            -- txn.check_valid raises InvalidTransactionError
            (.error .invalidTransactionError, c, ev0 ++ [Event.checkValid minfo])

/-- `SawtoothClient.send_batch`: `len(self._update_batch)` raises
`TypeError` when the slot is `None`; otherwise, if the dict length is 0
(which never happens for the two-key dict `start_batch` builds), raise
`ClientException`; otherwise clear the slot and delegate the whole dict
to `sendtxn`. -/
def Client.send_batch (o : TxnOracle) (c : Client) :
    Except PyErr (Option String) × Client × List Event :=
  match c.updateBatch with
  | none =>
      (.error (.typeError "object of type NoneType has no len()"), c, [])
  | some b =>
      if b.length = 0 then
        (.error (.clientException "No updates in batch."), c, [])
      else
        let msgInfo := b
        let c' := { c with updateBatch := none }
        Client.sendtxn o c' msgInfo

/-- The `TransactionStatus` enum members.  The source is an `IntEnum`
(the `IntEnum as Enum` import), so each member's value is the HTTP code;
the stray trailing comma on `internal_server_error = 500,` makes the
tuple `(500,)`, which the `int` mixin constructor unpacks back to 500. -/
inductive TransactionStatus where
  | committed
  | pending
  | not_found
  | internal_server_error
  | server_busy
deriving Repr, DecidableEq

/-- The numeric value of each `TransactionStatus` member. -/
def TransactionStatus.value : TransactionStatus → Nat
  | .committed => 200
  | .pending => 302
  | .not_found => 404
  | .internal_server_error => 500
  | .server_busy => 503

/-- The member list of the enum, in declaration order. -/
def transactionStatusMembers : List TransactionStatus :=
  [.committed, .pending, .not_found, .internal_server_error, .server_busy]

/-- The enum's reverse lookup `TransactionStatus(code)`: the member with
that value, raising `ValueError` (here `none`) when no member matches. -/
def transactionStatusFromValue (code : Nat) : Option TransactionStatus :=
  transactionStatusMembers.find? (fun s => s.value = code)

/-- A transaction status as presented by the client: a recognized enum
member, or the diagnostic label `str(status)` produced by the
`except ValueError` fallback in `wait_for_commit` for an unrecognized
code. -/
inductive MappedStatus where
  | status (s : TransactionStatus)
  | unknown (label : String)
deriving Repr, DecidableEq

/-- The total code-to-status mapping the client implements:
`TransactionStatus(status)` with the `ValueError` fallback labelling the
numeric code. -/
def mapStatusCode (code : Nat) : MappedStatus :=
  match transactionStatusFromValue code with
  | some s => .status s
  | none => .unknown (toString code)

/-- Python truthiness of an optional string (`None` and `''` are
falsy). -/
def optTruthy : Option String → Bool
  | none => false
  | some s => s ≠ ""

/-- The polling loop of `wait_for_commit`, restructured from
`while True` to structural recursion.  `statusAt p` is the HTTP code
returned by the status check made on pass `p` (passes are counted from
1, as in the source, where `passes` is incremented before the check);
`r` is `iterations + 1 - p`, so `r = 0` exactly when `passes >
iterations`.  The source exits with `False` when the status is not
`committed` (code 200, compared via the `IntEnum`) and `passes >
iterations`, exits with `True` when the status is `committed`, and
otherwise sleeps and loops.  Returns the boolean result and the number
of status checks issued. -/
def waitLoop (statusAt : Nat → Nat) (p : Nat) : Nat → Bool × Nat
  | 0 =>
      let status := statusAt p
      if status ≠ 200 then (false, p) else (true, p)
  | r + 1 =>
      let status := statusAt p
      if status = 200 then (true, p)
      else waitLoop statusAt (p + 1) r

/-- `SawtoothClient.wait_for_commit`: resolve the target transaction id
(falling back to `self._last_transaction`, with Python truthiness), and
return trivially `True` with zero status checks when there is none;
otherwise run the polling loop.  Returns the boolean result and the
number of status checks issued. -/
def wait_for_commit (statusAt : Nat → Nat) (txnid lastTransaction : Option String)
    (iterations : Nat) : Bool × Nat :=
  let t := if optTruthy txnid then txnid else lastTransaction
  if optTruthy t then
    waitLoop statusAt 1 iterations
  else
    (true, 0)

/-- The `_Communication` instance state: the session-affinity cookie. -/
structure Communication where
  cookie : Option String
deriving Repr, DecidableEq

/-- An outgoing HTTP request as the client builds it: the method and the
headers the client itself adds (`urllib2.Request` headers plus
`add_header` calls). -/
structure PyRequest where
  method : String
  headers : List (String × String)
deriving Repr, DecidableEq

/-- `_Communication.headrequest`: builds `urllib2.Request(url)` with no
client-added headers and never touches the cookie. -/
def Communication.headrequest (c : Communication) : PyRequest × Communication :=
  ({ method := "HEAD", headers := [] }, c)

/-- `_Communication.getmsg`: builds `urllib2.Request(url)` with no
client-added headers and never touches the cookie. -/
def Communication.getmsg (c : Communication) : PyRequest × Communication :=
  ({ method := "GET", headers := [] }, c)

/-- `_Communication.postmsg` (successful-response path): builds the
request with the CBOR content headers, adds the `cookie` header when
`self._cookie` is truthy, and, when it is not, stores the response's
`Set-Cookie` header (`respSetCookie`, which may be absent). -/
def Communication.postmsg (c : Communication) (datalen : Nat)
    (respSetCookie : Option String) : PyRequest × Communication :=
  let baseHeaders :=
    [("Content-Type", "application/cbor"), ("Content-Length", toString datalen)]
  let hs :=
    match c.cookie with
    | some k => if k ≠ "" then baseHeaders ++ [("cookie", k)] else baseHeaders
    | none => baseHeaders
  let c' := if optTruthy c.cookie then c else { cookie := respSetCookie }
  ({ method := "POST", headers := hs }, c')

/-! ## Helper lemmas -/

/-- `applyDeltas` folds clone-with-delta over the ids in list order and
issues one delta request per id, in the same order. -/
theorem applyDeltas_eq (remote : RemoteLedger) (st : Store) (l : List String) :
    applyDeltas remote st l =
      (l.foldl (fun s i => Store.cloneDelta s (remote.delta i)) st,
       l.map Req.storeDelta) := by
  induction l generalizing st with
  | nil => rfl
  | cons i rest ih => simp [applyDeltas, ih, List.foldl_cons]

/-! ## Claims about the state-synchronization engine -/

/-- C1: when the recorded head appears in the fetched 10-newest-first
block-id list but is not the newest id, `fetch` requests the delta of
each strictly newer block in oldest-to-newest order (the reverse of the
fetched order), replaces the synchronized snapshot by a
clone-with-delta at each step, and finally sets the recorded head to
the newest id. -/
theorem fetch_incremental (remote : RemoteLedger) (cspec : Option Store)
    (head : String) (rest : List String) (cur : String) (st : Store)
    (hlist : remote.blockList = head :: rest)
    (hmem : cur ∈ remote.blockList)
    (hne : head ≠ cur) :
    ClientState.fetch remote
      { state := some st, currentState := cspec, currentBlockId := some cur } =
      Except.ok
        (let newer := (remote.blockList.takeWhile (fun b => b ≠ cur)).reverse
         let syncStore := newer.foldl (fun s i => Store.cloneDelta s (remote.delta i)) st
         ({ state := some syncStore,
            currentState := some (Store.fork syncStore),
            currentBlockId := some head },
          Req.blockList 10 :: newer.map Req.storeDelta)) := by
  have hmem' : cur ∈ head :: rest := hlist ▸ hmem
  simp [ClientState.fetch, hlist, hne, hmem', applyDeltas_eq]

/-- C1 witness: recorded head `B0`, fetched list `[B3,B2,B1,B0]`; the
deltas of `B1`, `B2`, `B3` are requested and applied in that order and
the head becomes `B3`. -/
theorem fetch_incremental_witness :
    ClientState.fetch
      { blockList := ["B3", "B2", "B1", "B0"],
        delta := fun i => { raw := i },
        storeObjects := fun _ => [] }
      { state := some (Store.base []),
        currentState := some (Store.fork (Store.base [])),
        currentBlockId := some "B0" : ClientState } =
      Except.ok
        ({ state := some
             (Store.cloneDelta
               (Store.cloneDelta
                 (Store.cloneDelta (Store.base []) { raw := "B1" })
                 { raw := "B2" })
               { raw := "B3" }),
           currentState := some
             (Store.fork
               (Store.cloneDelta
                 (Store.cloneDelta
                   (Store.cloneDelta (Store.base []) { raw := "B1" })
                   { raw := "B2" })
                 { raw := "B3" })),
           currentBlockId := some "B3" },
         [Req.blockList 10, Req.storeDelta "B1", Req.storeDelta "B2",
          Req.storeDelta "B3"]) :=
  fetch_incremental _ (some (Store.fork (Store.base []))) "B3"
    ["B2", "B1", "B0"] "B0" (Store.base []) rfl (by decide) (by decide)

/-- C2: when the recorded head is absent from the fetched list
(including the never-synchronized case with no recorded head), `fetch`
requests the full object set as of the newest id, builds a brand-new
base store from it (whose predecessor is `none`: no delta chain, no
shared history), issues no delta request, and records the newest id. -/
theorem fetch_full_refetch (remote : RemoteLedger)
    (sOpt cspec : Option Store) (curOpt : Option String)
    (head : String) (rest : List String)
    (hlist : remote.blockList = head :: rest)
    (habs : ∀ cur, curOpt = some cur → cur ∉ remote.blockList) :
    ClientState.fetch remote
      { state := sOpt, currentState := cspec, currentBlockId := curOpt } =
      Except.ok
        ({ state := some (Store.base (remote.storeObjects head)),
           currentState := some (Store.fork (Store.base (remote.storeObjects head))),
           currentBlockId := some head },
         [Req.blockList 10, Req.storeObjects head]) ∧
    (Store.base (remote.storeObjects head)).prevStore = none := by
  have hheadmem : head ∈ remote.blockList := by
    rw [hlist]; exact List.mem_cons_self _ _
  refine ⟨?_, rfl⟩
  cases curOpt with
  | none => simp [ClientState.fetch, hlist]
  | some cur =>
      have hnotmem : cur ∉ head :: rest := hlist ▸ habs cur rfl
      have hne : head ≠ cur := fun h => (habs cur rfl) (h ▸ hheadmem)
      simp [ClientState.fetch, hlist, hne, hnotmem]

/-- C2 witness: never-synchronized client, fetched list `[B1]`; a full
object fetch as of `B1` builds a fresh base store. -/
theorem fetch_full_refetch_witness :
    ClientState.fetch
      { blockList := ["B1"],
        delta := fun i => { raw := i },
        storeObjects := fun _ => [("k", "v")] }
      { state := none, currentState := none, currentBlockId := none } =
      Except.ok
        ({ state := some (Store.base [("k", "v")]),
           currentState := some (Store.fork (Store.base [("k", "v")])),
           currentBlockId := some "B1" },
         [Req.blockList 10, Req.storeObjects "B1"]) ∧
    (Store.base [("k", "v")]).prevStore = none :=
  fetch_full_refetch _ none none none "B1" [] rfl (fun cur h => by simp at h)

/-- C3: when the newest fetched id equals the recorded head, `fetch`
returns after the single block-list request, leaving the synchronized
snapshot, the speculative snapshot and the recorded head all
unchanged. -/
theorem fetch_noop_when_current (remote : RemoteLedger)
    (sOpt cspec : Option Store) (head : String) (rest : List String)
    (hlist : remote.blockList = head :: rest) :
    ClientState.fetch remote
      { state := sOpt, currentState := cspec, currentBlockId := some head } =
      Except.ok
        ({ state := sOpt, currentState := cspec, currentBlockId := some head },
         [Req.blockList 10]) := by
  simp [ClientState.fetch, hlist]

/-- C3 witness: recorded head `B2`, fetched list `[B2,B1]`; the client
state is returned unchanged after one request. -/
theorem fetch_noop_when_current_witness :
    ClientState.fetch
      { blockList := ["B2", "B1"],
        delta := fun i => { raw := i },
        storeObjects := fun _ => [] }
      { state := some (Store.base []),
        currentState := some (Store.fork (Store.base [])),
        currentBlockId := some "B2" } =
      Except.ok
        ({ state := some (Store.base []),
           currentState := some (Store.fork (Store.base [])),
           currentBlockId := some "B2" },
         [Req.blockList 10]) :=
  fetch_noop_when_current _ (some (Store.base []))
    (some (Store.fork (Store.base []))) "B2" ["B1"] rfl

/-! ## Claims about the batch accumulator and submission pipeline -/

/-- A concrete transaction-family oracle whose post succeeds. -/
def oracleOk : TxnOracle :=
  { identifierOf := fun _ => "txn-1",
    checkValid := fun _ _ => true,
    applyTxn := fun _ st => Store.cloneDelta st { raw := "txn-1" },
    post := .ok true }

/-- The same oracle with a transport-level post failure. -/
def oracleFail : TxnOracle :=
  { oracleOk with post := .messageException }

/-- A client with an open batch holding no accumulated updates. -/
def clientEmptyBatch : Client :=
  { updateBatch := some newBatchDict,
    lastTransaction := none,
    specState := some (Store.base []),
    disableClientValidation := false,
    hasLocalNode := true }

/-- `sendtxnPost` never touches the batch slot. -/
theorem sendtxnPost_updateBatch (o : TxnOracle) (c : Client) (m : BatchDict)
    (ev : List Event) :
    (Client.sendtxnPost o c m ev).2.1.updateBatch = c.updateBatch := by
  unfold Client.sendtxnPost
  cases o.post with
  | ok hasResult =>
      cases hasResult with
      | false => rfl
      | true =>
          cases c.disableClientValidation <;> cases c.specState <;> simp
  | messageException => rfl
  | invalidTransactionError => rfl

/-- `sendtxn` never touches the batch slot. -/
theorem sendtxn_updateBatch (o : TxnOracle) (c : Client) (m : BatchDict) :
    (Client.sendtxn o c m).2.1.updateBatch = c.updateBatch := by
  unfold Client.sendtxn
  cases c.hasLocalNode with
  | false => rfl
  | true =>
      cases c.disableClientValidation with
      | true => simp [sendtxnPost_updateBatch]
      | false =>
          cases c.specState with
          | none => simp
          | some st =>
              by_cases hv : o.checkValid m st = true <;>
                simp [hv, sendtxnPost_updateBatch]

/-- C10: on a client whose batch slot is empty, `send_batch` fails with
the untyped `TypeError` raised by `len(None)` (not with the
`ClientException` configuration-error type), before any pipeline event,
and leaves the client unchanged. -/
theorem send_batch_no_open_batch (o : TxnOracle) (c : Client)
    (h : c.updateBatch = none) :
    Client.send_batch o c =
      (.error (.typeError "object of type NoneType has no len()"), c, []) ∧
    (∀ msg, PyErr.typeError "object of type NoneType has no len()" ≠
        PyErr.clientException msg) := by
  refine ⟨?_, fun msg hcontra => by cases hcontra⟩
  simp [Client.send_batch, h]

/-- C10 witness: a fresh client that never started a batch. -/
theorem send_batch_no_open_batch_witness :
    Client.send_batch oracleOk (Client.reset_batch clientEmptyBatch) =
      (.error (.typeError "object of type NoneType has no len()"),
       Client.reset_batch clientEmptyBatch, []) ∧
    (∀ msg, PyErr.typeError "object of type NoneType has no len()" ≠
        PyErr.clientException msg) :=
  send_batch_no_open_batch oracleOk (Client.reset_batch clientEmptyBatch) rfl

/-- C4: code behavior at the failing input.  With an open batch holding
no updates, `send_batch` does not raise the
`ClientException "No updates in batch."` (the guard tests `len` of the
fixed two-key dict, which is 2, never 0): it proceeds to build, sign,
validate and post an update-less transaction and succeeds. -/
theorem send_batch_empty_batch_submits :
    newBatchDict.length = 2 ∧
    Client.send_batch oracleOk clientEmptyBatch =
      (.ok (some "txn-1"),
       { updateBatch := none,
         lastTransaction := some "txn-1",
         specState := some (Store.cloneDelta (Store.base []) { raw := "txn-1" }),
         disableClientValidation := false,
         hasLocalNode := true },
       [Event.buildAndSign newBatchDict, Event.checkValid newBatchDict,
        Event.post newBatchDict, Event.applySpec newBatchDict]) := by
  constructor
  · rfl
  · rfl

/-- C6: at most one open batch per client: `start_batch` on an occupied
slot fails with the configuration error and leaves the client (hence
the existing batch) unchanged, and `send_batch` empties the slot before
delegating, so the client returned by `send_batch` never has an open
batch regardless of the pipeline outcome. -/
theorem single_open_batch (o : TxnOracle) (c : Client) (b : BatchDict)
    (hb : c.updateBatch = some b) (hlen : b.length ≠ 0) :
    Client.start_batch c =
      (.error (.clientException "Update batch already in progress."), c) ∧
    (Client.send_batch o c).2.1.updateBatch = none := by
  constructor
  · simp [Client.start_batch, hb]
  · simp [Client.send_batch, hb, hlen, sendtxn_updateBatch]

/-- C6 witness: an open (empty) batch, with a transport-failing
pipeline: `start_batch` is rejected and after `send_batch` the slot is
empty even though the post failed. -/
theorem single_open_batch_witness :
    Client.start_batch clientEmptyBatch =
      (.error (.clientException "Update batch already in progress."),
       clientEmptyBatch) ∧
    (Client.send_batch oracleFail clientEmptyBatch).2.1.updateBatch = none :=
  single_open_batch oracleFail clientEmptyBatch newBatchDict rfl (by decide)

/-- Behavior of `sendtxnPost` per post outcome: any outcome other than
a successful truthy-result post leaves the client untouched; a
transport failure additionally yields the `None` result; a successful
post records the identifier and mutates the speculative snapshot
exactly when client validation is enabled. -/
theorem sendtxnPost_outcomes (o : TxnOracle) (c : Client) (m : BatchDict)
    (ev : List Event) :
    (o.post ≠ .ok true → (Client.sendtxnPost o c m ev).2.1 = c) ∧
    (o.post = .messageException →
       (Client.sendtxnPost o c m ev).1 = .ok none) ∧
    (o.post = .ok true →
       (Client.sendtxnPost o c m ev).2.1.lastTransaction =
         some (o.identifierOf m) ∧
       (c.disableClientValidation = true →
          (Client.sendtxnPost o c m ev).1 = .ok (some (o.identifierOf m)) ∧
          (Client.sendtxnPost o c m ev).2.1.specState = c.specState) ∧
       (∀ st, c.disableClientValidation = false → c.specState = some st →
          (Client.sendtxnPost o c m ev).1 = .ok (some (o.identifierOf m)) ∧
          (Client.sendtxnPost o c m ev).2.1.specState =
            some (o.applyTxn m st))) := by
  obtain ⟨ub, lt, ss, dis, node⟩ := c
  unfold Client.sendtxnPost
  cases hp : o.post with
  | ok hasResult =>
      cases hasResult with
      | false => simp
      | true =>
          cases dis with
          | true => simp
          | false =>
              cases ss with
              | none => simp
              | some st0 => simp
  | messageException => simp
  | invalidTransactionError => simp

/-- C5: when the post fails at transport level, `sendtxn` returns the
null result and leaves the whole client — in particular the speculative
snapshot and the last-submitted transaction id — unchanged; the
identifier is recorded and the speculative snapshot mutated only on a
successful post, and the mutation is skipped when client validation is
disabled. -/
theorem sendtxn_transport_failure (o : TxnOracle) (c : Client)
    (m : BatchDict)
    (hnode : c.hasLocalNode = true)
    (hval : c.disableClientValidation = true ∨
            ∃ st, c.specState = some st ∧ o.checkValid m st = true) :
    (o.post = .messageException →
       (Client.sendtxn o c m).1 = .ok none ∧ (Client.sendtxn o c m).2.1 = c) ∧
    (o.post ≠ .ok true → (Client.sendtxn o c m).2.1 = c) ∧
    (o.post = .ok true →
       (Client.sendtxn o c m).1 = .ok (some (o.identifierOf m)) ∧
       (Client.sendtxn o c m).2.1.lastTransaction = some (o.identifierOf m) ∧
       (c.disableClientValidation = true →
          (Client.sendtxn o c m).2.1.specState = c.specState) ∧
       (∀ st, c.specState = some st →
          c.disableClientValidation = false →
          (Client.sendtxn o c m).2.1.specState = some (o.applyTxn m st))) := by
  have hred : ∃ ev, Client.sendtxn o c m = Client.sendtxnPost o c m ev := by
    rcases hval with hdis | ⟨st, hss, hcv⟩
    · exact ⟨[Event.buildAndSign m], by simp [Client.sendtxn, hnode, hdis]⟩
    · cases hdis : c.disableClientValidation with
      | true =>
          exact ⟨[Event.buildAndSign m], by simp [Client.sendtxn, hnode, hdis]⟩
      | false =>
          exact ⟨[Event.buildAndSign m] ++ [Event.checkValid m],
                 by simp [Client.sendtxn, hnode, hdis, hss, hcv]⟩
  obtain ⟨ev, heq⟩ := hred
  rw [heq]
  obtain ⟨h1, h2, h3⟩ := sendtxnPost_outcomes o c m ev
  refine ⟨fun hp => ⟨h2 hp, h1 (by rw [hp]; intro hx; cases hx)⟩, h1, fun hp => ?_⟩
  obtain ⟨hl, hd, hnd⟩ := h3 hp
  refine ⟨?_, hl, fun hdis => (hd hdis).2, fun st hss hdis => (hnd st hdis hss).2⟩
  rcases hval with hdis | ⟨st, hss, _⟩
  · exact (hd hdis).1
  · cases hdis2 : c.disableClientValidation with
    | true => exact (hd hdis2).1
    | false => exact (hnd st hdis2 hss).1

/-- C5 witness: a configured client whose post fails at transport
level: `sendtxn` returns null and leaves the client unchanged. -/
theorem sendtxn_transport_failure_witness :
    (Client.sendtxn oracleFail (Client.reset_batch clientEmptyBatch)
        newBatchDict).1 = .ok none ∧
    (Client.sendtxn oracleFail (Client.reset_batch clientEmptyBatch)
        newBatchDict).2.1 = Client.reset_batch clientEmptyBatch :=
  (sendtxn_transport_failure oracleFail (Client.reset_batch clientEmptyBatch)
      newBatchDict rfl
      (Or.inr ⟨Store.base [], rfl, rfl⟩)).1 rfl

/-! ## Claims about commit polling, status mapping and the session cookie -/

/-- If no check from pass `p` through pass `p + r` reports committed,
the loop exits with failure after the check of pass `p + r`. -/
theorem waitLoop_never_committed (statusAt : Nat → Nat) :
    ∀ r p, (∀ q, p ≤ q → q ≤ p + r → statusAt q ≠ 200) →
      waitLoop statusAt p r = (false, p + r) := by
  intro r
  induction r with
  | zero =>
      intro p h
      simp [waitLoop, h p le_rfl (by omega)]
  | succ r ih =>
      intro p h
      have h0 : statusAt p ≠ 200 := h p le_rfl (by omega)
      have harith : p + 1 + r = p + (r + 1) := by omega
      simp only [waitLoop, h0, if_neg]
      rw [if_neg (by simp [h0]), ih (p + 1) (fun q hq1 hq2 => h q (by omega) (by omega)),
          harith]

/-- If pass `k` (within budget) is the first to report committed, the
loop exits with success at pass `k`, issuing no further check. -/
theorem waitLoop_committed (statusAt : Nat → Nat) :
    ∀ r p k, p ≤ k → k ≤ p + r → statusAt k = 200 →
      (∀ j, p ≤ j → j < k → statusAt j ≠ 200) →
      waitLoop statusAt p r = (true, k) := by
  intro r
  induction r with
  | zero =>
      intro p k h1 h2 hk _
      have hpk : k = p := by omega
      subst hpk
      simp [waitLoop, hk]
  | succ r ih =>
      intro p k h1 h2 hk hj
      by_cases hpk : p = k
      · subst hpk
        simp [waitLoop, hk]
      · have hp : statusAt p ≠ 200 := hj p le_rfl (by omega)
        simp only [waitLoop]
        rw [if_neg hp]
        exact ih (p + 1) k (by omega) (by omega) hk
          (fun j hj1 hj2 => hj j (by omega) hj2)

/-- C7 counterexample: `iterations = 3` against a peer that always
reports pending (HTTP 302) makes the loop issue 4 status checks before
returning failure — more than the at-most-3 the claim allows. -/
theorem wait_for_commit_four_checks :
    wait_for_commit (fun _ => 302) (some "tx1") none 3 = (false, 4) ∧
    ¬(4 ≤ 3) := by
  exact ⟨rfl, by decide⟩

/-- C7 (amended): with retry budget `iterations = N`, a run against a
peer that never reports committed issues exactly `N + 1` status checks
(the initial check plus `N` retries) and returns false; and when the
first committed report arrives on a pass within the budget, the loop
returns true at that pass without issuing any further check. -/
theorem wait_for_commit_polling (statusAt : Nat → Nat) (N : Nat)
    (txnid : String) (htx : txnid ≠ "") :
    ((∀ p, 1 ≤ p → p ≤ N + 1 → statusAt p ≠ 200) →
       wait_for_commit statusAt (some txnid) none N = (false, N + 1)) ∧
    (∀ k, 1 ≤ k → k ≤ N + 1 → statusAt k = 200 →
       (∀ j, 1 ≤ j → j < k → statusAt j ≠ 200) →
       wait_for_commit statusAt (some txnid) none N = (true, k)) := by
  have hres : wait_for_commit statusAt (some txnid) none N =
      waitLoop statusAt 1 N := by
    simp [wait_for_commit, optTruthy, htx]
  constructor
  · intro h
    rw [hres,
        waitLoop_never_committed statusAt N 1 (fun q hq1 hq2 => h q hq1 (by omega))]
    rw [Nat.add_comm]
  · intro k h1 h2 hk hj
    rw [hres]
    exact waitLoop_committed statusAt N 1 k h1 (by omega) hk hj

/-- C7 witness: budget 2, committed reported on the second check: two
checks, success; and a never-committed peer with budget 2: three
checks, failure. -/
theorem wait_for_commit_polling_witness :
    wait_for_commit (fun p => if p = 2 then 200 else 302) (some "tx1") none 2 =
      (true, 2) :=
  (wait_for_commit_polling (fun p => if p = 2 then 200 else 302) 2 "tx1"
      (by decide)).2 2 (by decide) (by decide) (by decide)
    (fun j hj1 hj2 => by
      have hj : j = 1 := by omega
      subst hj
      decide)

/-- C8: the client's total code-to-status mapping: the five recognized
codes map to their `TransactionStatus` members, every other code maps
to the diagnostic unknown status labelled with the numeric code, and no
code fails to map. -/
theorem status_code_mapping :
    mapStatusCode 200 = .status .committed ∧
    mapStatusCode 302 = .status .pending ∧
    mapStatusCode 404 = .status .not_found ∧
    mapStatusCode 500 = .status .internal_server_error ∧
    mapStatusCode 503 = .status .server_busy ∧
    ∀ code, code ∉ ([200, 302, 404, 500, 503] : List Nat) →
      mapStatusCode code = .unknown (toString code) := by
  refine ⟨rfl, rfl, rfl, rfl, rfl, ?_⟩
  intro code hcode
  simp only [List.mem_cons, List.not_mem_nil, or_false, not_or] at hcode
  obtain ⟨h1, h2, h3, h4, h5⟩ := hcode
  simp [mapStatusCode, transactionStatusFromValue, transactionStatusMembers,
        List.find?, TransactionStatus.value, Ne.symm h1, Ne.symm h2, Ne.symm h3,
        Ne.symm h4, Ne.symm h5]

/-- C8 witness: an unrecognized code (418) maps to the unknown status
labelled with the code. -/
theorem status_code_mapping_witness :
    mapStatusCode 418 = .unknown "418" :=
  status_code_mapping.2.2.2.2.2 418 (by decide)

/-- C9 counterexample: after the first POST response supplies the
session token, a subsequent HEAD request (and likewise a GET) from the
same client carries no header at all — so the token is not carried on
every subsequent request, contrary to the claim. -/
theorem cookie_not_on_head_or_get :
    ((Communication.postmsg { cookie := none } 0 (some "session=abc")).2).cookie
        = some "session=abc" ∧
    (Communication.headrequest
        (Communication.postmsg { cookie := none } 0 (some "session=abc")).2).1.headers
        = [] ∧
    (Communication.getmsg
        (Communication.postmsg { cookie := none } 0 (some "session=abc")).2).1.headers
        = [] :=
  ⟨rfl, rfl, rfl⟩

/-- C9 (amended): the session token is set at most once per client —
lazily, from the first POST response that supplies one — and never
overwritten afterwards; once set it is carried as a request header on
every subsequent POST request, while HEAD and GET requests never carry
it (and never touch it). -/
theorem cookie_amended (c : Communication) (k : String) (dl : Nat)
    (resp : Option String) (hk : c.cookie = some k) (hk' : k ≠ "") :
    (Communication.postmsg c dl resp).2 = c ∧
    ("cookie", k) ∈ (Communication.postmsg c dl resp).1.headers ∧
    (Communication.headrequest c).2 = c ∧
    (Communication.headrequest c).1.headers = [] ∧
    (Communication.getmsg c).2 = c ∧
    (Communication.getmsg c).1.headers = [] ∧
    (∀ c' : Communication, c'.cookie = none →
       (Communication.postmsg c' dl resp).2.cookie = resp ∧
       ∀ s, ("cookie", s) ∉ (Communication.postmsg c' dl resp).1.headers) := by
  refine ⟨?_, ?_, rfl, rfl, rfl, rfl, ?_⟩
  · simp [Communication.postmsg, optTruthy, hk, hk']
  · simp [Communication.postmsg, hk, hk']
  · intro c' hc'
    constructor
    · simp [Communication.postmsg, optTruthy, hc']
    · intro s
      simp [Communication.postmsg, hc']

/-- C9 witness: a client holding the token `session=abc` keeps it
across a POST, sends it on the POST, and HEAD/GET neither carry nor
touch it. -/
theorem cookie_amended_witness :
    (Communication.postmsg { cookie := some "session=abc" } 0
        (some "other")).2 = { cookie := some "session=abc" } ∧
    ("cookie", "session=abc") ∈
      (Communication.postmsg { cookie := some "session=abc" } 0
        (some "other")).1.headers ∧
    (Communication.headrequest { cookie := some "session=abc" }).2 =
      { cookie := some "session=abc" } ∧
    (Communication.headrequest { cookie := some "session=abc" }).1.headers = [] ∧
    (Communication.getmsg { cookie := some "session=abc" }).2 =
      { cookie := some "session=abc" } ∧
    (Communication.getmsg { cookie := some "session=abc" }).1.headers = [] ∧
    (∀ c' : Communication, c'.cookie = none →
       (Communication.postmsg c' 0 (some "other")).2.cookie = some "other" ∧
       ∀ s, ("cookie", s) ∉ (Communication.postmsg c' 0 (some "other")).1.headers) :=
  cookie_amended { cookie := some "session=abc" } "session=abc" 0
    (some "other") rfl (by decide)

end Sawtooth
